import Mathlib

/-!
Shallow embedding of the lint-builder logic of this repository
(`packages/builder/src/utils/eslint-utils.ts` and the builder handler that
consumes it), together with theorems checking the natural-language
specification against it.

JavaScript optional fields are modelled with `Option`; JavaScript
truthiness of the relevant value shapes is modelled explicitly by the
`js*` helpers below.  Strings are modelled by Lean `String`, operating on
their character lists where the builtin `String` operations do not reduce.
-/

/-- Truthiness of an optional JavaScript boolean (the `!!x` coercion):
`undefined` is falsy. -/
def jsTruthy (b : Option Bool) : Bool := b.getD false

/-- JavaScript `x || undefined` applied to an optional string: both
`undefined` and the empty string collapse to `undefined`. -/
def jsOrUndefined (s : Option String) : Option String :=
  match s with
  | some v => if v = "" then none else some v
  | none => none

/-- Truthiness of an optional JavaScript string: `undefined` and the empty
string are falsy, every other string is truthy. -/
def jsStrTruthy (s : Option String) : Bool :=
  match s with
  | some v => v != ""
  | none => false

/-- JavaScript `String.prototype.endsWith`, modelled on character lists. -/
def jsEndsWith (s pat : String) : Bool :=
  s.data.drop (s.data.length - pat.data.length) == pat.data

/-- Source: `supportedFlatConfigNames` in `eslint-utils.ts`. -/
def supportedFlatConfigNames : List String :=
  ["eslint.config.js",
   "eslint.config.mjs",
   "eslint.config.cjs",
   "eslint.config.ts",
   "eslint.config.mts",
   "eslint.config.cts"]

/-- The options bag (`Schema`) fields that the modelled logic reads.
Optional JavaScript fields are `Option`-valued; `maxWarnings` is an
integer in the schema (it may be negative, e.g. the default -1), and may
also be absent. -/
structure Schema where
  fix : Option Bool
  cache : Option Bool
  cacheLocation : Option String
  cacheStrategy : Option String
  stats : Option Bool
  useEslintrc : Option Bool
  resolvePluginsRelativeTo : Option String
  ignorePath : Option String
  reportUnusedDisableDirectives : Option String
  noConfigLookup : Option Bool
  rulesdir : Option (List String)
  noEslintrc : Option Bool
  quiet : Option Bool
  maxWarnings : Option Int
  force : Option Bool
  lintFilePatterns : List String
  deriving Repr

/-- The three JavaScript value shapes the `overrideConfigFile` option can
take after resolution: a string path, a boolean, or `undefined`. -/
inductive ConfigFileValue where
  | str : String → ConfigFileValue
  | bool : Bool → ConfigFileValue
  | undef : ConfigFileValue
  deriving Repr, DecidableEq

/-- The options object handed to the ESLint constructor.  An outer `none`
on the legacy-only and flat-only fields means the property is not set on
the object at all; `some none` means the property is set to `undefined`. -/
structure ESLintOptions where
  fix : Bool
  cache : Bool
  cacheLocation : Option String
  cacheStrategy : Option String
  errorOnUnmatchedPattern : Bool
  stats : Option Bool
  overrideConfigFile : ConfigFileValue
  rulePaths : Option (List String)
  resolvePluginsRelativeTo : Option (Option String)
  ignorePath : Option (Option String)
  useEslintrc : Option Bool
  reportUnusedDisableDirectives : Option (Option String)
  deriving Repr, DecidableEq

/-- Error message of the stats gate in `resolveAndInstantiateESLint`. -/
def statsRequiresFlatConfigMsg : String :=
  "The --stats option requires ESLint Flat Config"

/-- Error message of the flat-config file-name allow-list check. -/
def flatConfigFileNameMsg : String :=
  "When using the new Flat Config with ESLint, all configs must be named "
    ++ String.intercalate " or " supportedFlatConfigNames
    ++ ", and .eslintrc files may not be used. See https://eslint.org/docs/latest/use/configure/configuration-files"

/-- Error message for `useEslintrc` under flat config. -/
def useEslintrcNotApplicableMsg : String :=
  "For Flat Config, the `useEslintrc` option is not applicable. See https://eslint.org/docs/latest/use/configure/configuration-files-new"

/-- Error message for `resolvePluginsRelativeTo` under flat config. -/
def resolvePluginsRelativeToRemovedMsg : String :=
  "For Flat Config, ESLint removed `resolvePluginsRelativeTo` and so it is not supported as an option. See https://eslint.org/docs/latest/use/configure/configuration-files-new"

/-- Error message for `ignorePath` under flat config. -/
def ignorePathRemovedMsg : String :=
  "For Flat Config, ESLint removed `ignorePath` and so it is not supported as an option. See https://eslint.org/docs/latest/use/configure/configuration-files-new"

/-- Error message for `reportUnusedDisableDirectives` under flat config. -/
def reportUnusedDisableDirectivesRemovedMsg : String :=
  "For Flat Config, ESLint removed `reportUnusedDisableDirectives` and so it is not supported as an option. See https://eslint.org/docs/latest/use/configure/configuration-files-new"

/-- Shallow embedding of `resolveAndInstantiateESLint` from
`eslint-utils.ts`.  It returns the options object that the source passes
to the ESLint constructor; the constructor call itself (and the class
resolution in `resolveESLintClass`) is an external effect and is not
modelled.  Thrown `Error`s are modelled as `Except.error` carrying the
message. -/
def resolveAndInstantiateESLint (eslintConfigPath : Option String)
    (options : Schema) (useFlatConfig : Bool) : Except String ESLintOptions :=
  if jsTruthy options.stats && !useFlatConfig then
    Except.error statsRequiresFlatConfigMsg
  else if useFlatConfig && jsStrTruthy eslintConfigPath
      && !(supportedFlatConfigNames.any fun name =>
            jsEndsWith (eslintConfigPath.getD "") name) then
    Except.error flatConfigFileNameMsg
  else
    let eslintOptions : ESLintOptions := {
      fix := jsTruthy options.fix
      cache := jsTruthy options.cache
      cacheLocation := jsOrUndefined options.cacheLocation
      cacheStrategy := jsOrUndefined options.cacheStrategy
      errorOnUnmatchedPattern := false
      stats := none
      overrideConfigFile := ConfigFileValue.undef
      rulePaths := none
      resolvePluginsRelativeTo := none
      ignorePath := none
      useEslintrc := none
      reportUnusedDisableDirectives := none }
    if useFlatConfig then
      if options.useEslintrc.isSome then
        Except.error useEslintrcNotApplicableMsg
      else if options.resolvePluginsRelativeTo.isSome then
        Except.error resolvePluginsRelativeToRemovedMsg
      else if options.ignorePath.isSome then
        Except.error ignorePathRemovedMsg
      else if jsStrTruthy options.reportUnusedDisableDirectives then
        Except.error reportUnusedDisableDirectivesRemovedMsg
      else
        Except.ok { eslintOptions with
          stats := some (jsTruthy options.stats)
          overrideConfigFile :=
            match options.noConfigLookup with
            | some noConfigLookup =>
              let configLookup := !noConfigLookup
              let overrideConfigFile : ConfigFileValue :=
                match eslintConfigPath with
                | some p => ConfigFileValue.str p
                | none => ConfigFileValue.bool (!configLookup)
              if overrideConfigFile = ConfigFileValue.bool false then
                ConfigFileValue.undef
              else
                overrideConfigFile
            | none =>
              match eslintConfigPath with
              | some p => ConfigFileValue.str p
              | none => ConfigFileValue.undef }
    else
      Except.ok { eslintOptions with
        overrideConfigFile :=
          match eslintConfigPath with
          | some p => ConfigFileValue.str p
          | none => ConfigFileValue.undef
        rulePaths := some (options.rulesdir.getD [])
        resolvePluginsRelativeTo := some (jsOrUndefined options.resolvePluginsRelativeTo)
        ignorePath := some (jsOrUndefined options.ignorePath)
        useEslintrc := some (!jsTruthy options.noEslintrc)
        reportUnusedDisableDirectives := some (jsOrUndefined options.reportUnusedDisableDirectives) }

/-- One lint message of a per-file result (severity 1 = warning,
severity 2 = error). -/
structure LintMessage where
  ruleId : Option String
  severity : Nat
  line : Nat
  column : Nat
  message : String
  deriving Repr, DecidableEq

/-- One per-file lint result, as consumed by the builder handler. -/
structure LintResult where
  filePath : String
  messages : List LintMessage
  errorCount : Nat
  warningCount : Nat
  deriving Repr, DecidableEq

/-- The per-result body of the `lintResults.map` callback in the builder
handler: a result is kept for the report only if it has errors, or has
warnings while errors-only (quiet) mode is off; when kept under quiet
mode its message list is narrowed to severity-2 entries. -/
def filterLintResult (reportOnlyErrors : Bool) (result : LintResult) :
    Option LintResult :=
  if result.errorCount != 0 || (result.warningCount != 0 && !reportOnlyErrors) then
    if reportOnlyErrors then
      some { result with
        messages := result.messages.filter fun m => m.severity == 2 }
    else
      some result
  else
    none

/-- The aggregation pass of the builder handler: walking `lintResults`, it
accumulates `totalErrors` and `totalWarnings` over every result (before
any filtering decision), and builds `finalLintResults` by keeping the
results `filterLintResult` admits.  Returns
`(totalErrors, totalWarnings, finalLintResults)`. -/
def aggregateResults (reportOnlyErrors : Bool) :
    List LintResult → Nat × Nat × List LintResult
  | [] => (0, 0, [])
  | result :: rest =>
    let acc := aggregateResults reportOnlyErrors rest
    (result.errorCount + acc.1,
     result.warningCount + acc.2.1,
     match filterLintResult reportOnlyErrors result with
     | some r => r :: acc.2.2
     | none => acc.2.2)

/-- Source: `maxWarnings >= 0 && totalWarnings > maxWarnings` with
JavaScript comparison semantics: when `maxWarnings` is `undefined` the
comparison is false. -/
def tooManyWarnings (maxWarnings : Option Int) (totalWarnings : Nat) : Bool :=
  match maxWarnings with
  | none => false
  | some m => decide (0 ≤ m) && decide (m < (totalWarnings : Int))

/-- The `ignoredPatterns` list built by the handler when zero files were
linted: map each pattern to itself when the session reports it ignored
(else `null`), drop falsy entries, and render each survivor as a
`- <pattern>` line in single quotes. -/
def ignoredPatterns (isPathIgnored : String → Bool) (patterns : List String) :
    List String :=
  ((patterns.map fun pattern =>
      if isPathIgnored pattern then some pattern else none).filter
    fun x => jsStrTruthy x).map
    fun x => "- \x27" ++ x.getD "" ++ "\x27"

/-- Error message thrown when every surviving pattern is ignored. -/
def allFilesIgnoredMsg (lines : List String) : String :=
  "All files matching the following patterns are ignored:\n"
    ++ String.intercalate "\n" lines
    ++ "\n\nPlease check your \x27.eslintignore\x27 file."

/-- Error message thrown when zero files were linted and no pattern is
ignored. -/
def nothingToLintMsg : String :=
  "Invalid lint configuration. Nothing to lint. Please check your lint target pattern(s)."

/-- The empty-result handling of the builder handler: with an
`AllFilesIgnoredError` when at least one pattern reports as ignored, and
a `NoMatchingFilesError` otherwise. -/
def emptyLintResultsError (isPathIgnored : String → Bool)
    (patterns : List String) : String :=
  let ignored := ignoredPatterns isPathIgnored patterns
  if ignored.length != 0 then
    allFilesIgnoredMsg ignored
  else
    nothingToLintMsg

/-- Splitting a character list at every occurrence of a separator
character, mirroring the JavaScript `String.prototype.split` used on the
version string (so the empty input yields one empty piece). -/
def splitOnChar (sep : Char) : List Char → List (List Char)
  | [] => [[]]
  | c :: cs =>
    let rest := splitOnChar sep cs
    if c = sep then
      [] :: rest
    else
      match rest with
      | [] => [[c]]
      | h :: t => (c :: h) :: t

/-- JavaScript `version.split(".")` modelled on character lists. -/
def jsSplitDot (s : String) : List String :=
  (splitOnChar (Char.ofNat 46) s.data).map fun cs => String.mk cs

/-- Decimal digit test on a character, via its code point. -/
def isDigitChar (c : Char) : Bool := 48 ≤ c.toNat && c.toNat ≤ 57

/-- JavaScript `Number(s)` on the strings a version component can be,
with `NaN` modelled as `none`: the empty string converts to 0, a string
of decimal digits to its value, anything else (for this model) to `NaN`.
Exotic numeric syntaxes (signs, hexadecimal, exponents, whitespace) are
not modelled; version components do not use them. -/
def jsNumber (s : String) : Option Int :=
  if s.data.isEmpty then
    some 0
  else if s.data.all isDigitChar then
    some (Int.ofNat (s.data.foldl (fun acc c => acc * 10 + (c.toNat - 48)) 0))
  else
    none

/-- JavaScript `a < b` where `a` may be `NaN`: any comparison against
`NaN` is false. -/
def jsNumLt (a : Option Int) (b : Int) : Bool :=
  match a with
  | none => false
  | some x => decide (x < b)

/-- JavaScript `a === b` where `a` may be `NaN`. -/
def jsNumEq (a : Option Int) (b : Int) : Bool :=
  match a with
  | none => false
  | some x => decide (x = b)

/-- The version gate of the builder handler: the check that makes it
throw `ESLint must be version 7.6 or higher.`.  `none` models an absent
`ESLint.version` (so that `version` itself is undefined after the
optional chaining). -/
def versionTooOld (eslintVersion : Option String) : Bool :=
  match eslintVersion with
  | none => true
  | some v =>
    let version := jsSplitDot v
    if version.length < 2 then
      true
    else
      jsNumLt (jsNumber (version.getD 0 "")) 7
        || (jsNumEq (jsNumber (version.getD 0 "")) 7
            && jsNumLt (jsNumber (version.getD 1 "")) 6)

/-- Error message of the version gate. -/
def eslintVersionMsg : String := "ESLint must be version 7.6 or higher."

/-- The environment a builder run observes: the version reported by the
resolved ESLint class, the results `eslint.lintFiles` produces, and the
ignore predicate `eslint.isPathIgnored`. -/
structure LintEnv where
  eslintVersion : Option String
  lintResults : List LintResult
  isPathIgnored : String → Bool

/-- The builder handler body after the working-directory and config-path
normalisation, from option resolution up to the returned success flag.
Report formatting and writing (external formatter, filesystem) do not
influence the returned flag and are not modelled.  A thrown `Error` is
`Except.error` with its message. -/
def runBuilderCore (eslintConfigPath : Option String) (options : Schema)
    (useFlatConfig : Bool) (env : LintEnv) : Except String Bool :=
  match resolveAndInstantiateESLint eslintConfigPath options useFlatConfig with
  | Except.error msg => Except.error msg
  | Except.ok _eslintOptions =>
    if versionTooOld env.eslintVersion then
      Except.error eslintVersionMsg
    else
      let lintResults := env.lintResults
      if lintResults.length = 0 then
        Except.error (emptyLintResultsError env.isPathIgnored options.lintFilePatterns)
      else
        let agg := aggregateResults (jsTruthy options.quiet) lintResults
        let totalErrors := agg.1
        let totalWarnings := agg.2.1
        let tooMany := tooManyWarnings options.maxWarnings totalWarnings
        Except.ok (jsTruthy options.force || (totalErrors == 0 && !tooMany))

/-- The object the builder returns to the build system. -/
structure BuilderOutput where
  success : Bool
  error : Option String
  deriving Repr, DecidableEq

/-- The top-level catch of the builder handler: any thrown error becomes
a failure outcome whose message is prefixed accordingly. -/
def runBuilder (eslintConfigPath : Option String) (options : Schema)
    (useFlatConfig : Bool) (env : LintEnv) : BuilderOutput :=
  match runBuilderCore eslintConfigPath options useFlatConfig env with
  | Except.ok s => { success := s, error := none }
  | Except.error msg =>
    { success := false, error := some ("Error when running ESLint: " ++ msg) }

/-- Path join, modelled as slash concatenation; the joined paths are only
compared for equality by the modelled logic, so separator normalisation
is irrelevant. -/
def pathJoin (a b : String) : String := a ++ "/" ++ b

/-- Shallow embedding of `resolveESLintConfigPath` from the builder: a
best-effort lookup for the error message of the type-information error
path, checking `.eslintrc.json` and then three flat-config names in a
fixed order, independent of which configuration format is active.  The
filesystem is abstracted as an existence predicate. -/
def resolveESLintConfigPath (existsAt : String → Bool)
    (projectRoot : String) : Option String :=
  let rcPath := pathJoin projectRoot ".eslintrc.json"
  if existsAt rcPath then
    some rcPath
  else
    let jsPath := pathJoin projectRoot "eslint.config.js"
    if existsAt jsPath then
      some jsPath
    else
      let mjsPath := pathJoin projectRoot "eslint.config.mjs"
      if existsAt mjsPath then
        some mjsPath
      else
        let cjsPath := pathJoin projectRoot "eslint.config.cjs"
        if existsAt cjsPath then
          some cjsPath
        else
          none

/-- Modelled from the spec: the spec describes the best-effort lookup of
`resolveESLintConfigPath` as trying `.eslintrc.json` and then FOUR
flat-config names in the canonical order of `supportedFlatConfigNames`,
returning the first existing file.  This definition follows the words of
the spec so it can be compared with the source definition above. -/
def resolveESLintConfigPathSpecFourNames (existsAt : String → Bool)
    (projectRoot : String) : Option String :=
  ([".eslintrc.json", "eslint.config.js", "eslint.config.mjs",
    "eslint.config.cjs", "eslint.config.ts"].map
      (fun name => pathJoin projectRoot name)).find? existsAt

/-- Modelled from the spec: the three-state effective override-config-file
resolution described for flat format — when the disable-config-lookup
toggle is present, compute lookup = !toggle; the effective value is the
explicit path if one was given, else the boolean !lookup (true meaning
force no file), collapsing a false result to absent; when the toggle is
absent, the effective value is simply the explicit path (which may be
absent).  Stated from the words of the spec so the source resolution can
be compared against it. -/
def overrideConfigFileSpec (noConfigLookup : Option Bool)
    (eslintConfigPath : Option String) : ConfigFileValue :=
  match noConfigLookup with
  | some toggle =>
    let lookup := !toggle
    match eslintConfigPath with
    | some p => ConfigFileValue.str p
    | none =>
      if !lookup then ConfigFileValue.bool true else ConfigFileValue.undef
  | none =>
    match eslintConfigPath with
    | some p => ConfigFileValue.str p
    | none => ConfigFileValue.undef

/-- Test that a character list occurs contiguously inside another. -/
def containsChars (sub : List Char) : List Char → Bool
  | [] => sub.isEmpty
  | c :: cs => List.isPrefixOf sub (c :: cs) || containsChars sub cs

/-- Substring test on strings, via their character lists. -/
def containsStr (s sub : String) : Bool := containsChars sub.data s.data

/-- A concrete options bag with every optional field absent, used to build
the concrete instances below. -/
def defaultSchema : Schema :=
  { fix := none, cache := none, cacheLocation := none, cacheStrategy := none,
    stats := none, useEslintrc := none, resolvePluginsRelativeTo := none,
    ignorePath := none, reportUnusedDisableDirectives := none,
    noConfigLookup := none, rulesdir := none, noEslintrc := none,
    quiet := none, maxWarnings := none, force := none,
    lintFilePatterns := ["src/main.ts"] }

/-- A concrete per-file result carrying only warnings. -/
def warningOnlyResult (warningCount : Nat) : LintResult :=
  { filePath := "src/main.ts", messages := [], errorCount := 0,
    warningCount := warningCount }

/-- A concrete environment with a current ESLint version, the given
results, and nothing ignored. -/
def passingEnv (results : List LintResult) : LintEnv :=
  { eslintVersion := some "9.0.0", lintResults := results,
    isPathIgnored := fun _ => false }

/-- The session options the resolver produces for a flat run with the
disable-config-lookup toggle set and no explicit config path. -/
def noLookupResolvedOptions : ESLintOptions :=
  { fix := false, cache := false, cacheLocation := none,
    cacheStrategy := none, errorOnUnmatchedPattern := false,
    stats := some false, overrideConfigFile := ConfigFileValue.bool true,
    rulePaths := none, resolvePluginsRelativeTo := none, ignorePath := none,
    useEslintrc := none, reportUnusedDisableDirectives := none }

/-- The session options the resolver produces for a legacy run with every
optional field absent and no explicit config path. -/
def legacyDefaultResolvedOptions : ESLintOptions :=
  { fix := false, cache := false, cacheLocation := none,
    cacheStrategy := none, errorOnUnmatchedPattern := false, stats := none,
    overrideConfigFile := ConfigFileValue.undef, rulePaths := some [],
    resolvePluginsRelativeTo := some none, ignorePath := some none,
    useEslintrc := some true, reportUnusedDisableDirectives := some none }

/-- The first component of the aggregation pass is the plain sum of the
per-file error counts over all results. -/
theorem aggregateResults_errors_eq_sum (reportOnlyErrors : Bool)
    (results : List LintResult) :
    (aggregateResults reportOnlyErrors results).1 =
      (results.map LintResult.errorCount).sum := by
  induction results with
  | nil => rfl
  | cons r rs ih => simp [aggregateResults, ih]

/-- The second component of the aggregation pass is the plain sum of the
per-file warning counts over all results. -/
theorem aggregateResults_warnings_eq_sum (reportOnlyErrors : Bool)
    (results : List LintResult) :
    (aggregateResults reportOnlyErrors results).2.1 =
      (results.map LintResult.warningCount).sum := by
  induction results with
  | nil => rfl
  | cons r rs ih => simp [aggregateResults, ih]

/-- Unfolding of the warning-threshold test into the arithmetic it
implements. -/
theorem tooManyWarnings_eq_true_iff (maxWarnings : Option Int)
    (totalWarnings : Nat) :
    tooManyWarnings maxWarnings totalWarnings = true ↔
      ∃ m, maxWarnings = some m ∧ 0 ≤ m ∧ m < (totalWarnings : Int) := by
  cases maxWarnings with
  | none => simp [tooManyWarnings]
  | some m => simp [tooManyWarnings]

/-- Negative form of the warning-threshold test. -/
theorem tooManyWarnings_eq_false_iff (maxWarnings : Option Int)
    (totalWarnings : Nat) :
    tooManyWarnings maxWarnings totalWarnings = false ↔
      ¬ ∃ m, maxWarnings = some m ∧ 0 ≤ m ∧ m < (totalWarnings : Int) := by
  rw [← tooManyWarnings_eq_true_iff]
  cases tooManyWarnings maxWarnings totalWarnings <;> simp

/-- C2: for every list of per-file lint results, the total error count
and total warning count computed by the orchestrator equal the sums of
the per-file `errorCount` and `warningCount` fields over all results, and
these totals are identical whether or not errors-only (quiet) filtering
of the report view is applied. -/
theorem c2_totals_are_unfiltered_sums (reportOnlyErrors : Bool)
    (results : List LintResult) :
    (aggregateResults reportOnlyErrors results).1 =
        (results.map LintResult.errorCount).sum ∧
      (aggregateResults reportOnlyErrors results).2.1 =
        (results.map LintResult.warningCount).sum ∧
      (aggregateResults true results).1 = (aggregateResults false results).1 ∧
      (aggregateResults true results).2.1 = (aggregateResults false results).2.1 := by
  refine ⟨aggregateResults_errors_eq_sum _ _, aggregateResults_warnings_eq_sum _ _, ?_, ?_⟩
  · rw [aggregateResults_errors_eq_sum, aggregateResults_errors_eq_sum]
  · rw [aggregateResults_warnings_eq_sum, aggregateResults_warnings_eq_sum]

/-- C1: for every lint run that reaches the outcome step, the returned
success flag is true iff the force override is set, or the total error
count is zero and the warning threshold was not exceeded (the threshold
being exceeded exactly when a non-negative max-warnings value is
configured and total warnings exceed it); the totals are the unfiltered
per-file sums over all results. -/
theorem c1_outcome_success_iff (eslintConfigPath : Option String)
    (options : Schema) (useFlatConfig : Bool) (env : LintEnv) (b : Bool)
    (h : runBuilderCore eslintConfigPath options useFlatConfig env = Except.ok b) :
    b = true ↔
      (jsTruthy options.force = true ∨
        ((env.lintResults.map LintResult.errorCount).sum = 0 ∧
          ¬ ∃ m, options.maxWarnings = some m ∧ 0 ≤ m ∧
            m < ((env.lintResults.map LintResult.warningCount).sum : Int))) := by
  unfold runBuilderCore at h
  cases hres : resolveAndInstantiateESLint eslintConfigPath options useFlatConfig with
  | error msg => rw [hres] at h; exact Except.noConfusion h
  | ok o =>
    rw [hres] at h
    by_cases hv : versionTooOld env.eslintVersion
    · rw [if_pos hv] at h; exact Except.noConfusion h
    · rw [if_neg hv] at h
      by_cases hlen : env.lintResults.length = 0
      · rw [if_pos hlen] at h; exact Except.noConfusion h
      · rw [if_neg hlen] at h
        injection h with hb
        subst hb
        rw [Bool.or_eq_true, Bool.and_eq_true, beq_iff_eq,
          Bool.not_eq_true',
          aggregateResults_errors_eq_sum, aggregateResults_warnings_eq_sum,
          tooManyWarnings_eq_false_iff]

/-- Witness for C1: with no force override, zero errors, five warnings and
a max-warnings limit of three the outcome is failure; with three warnings
against the same limit it is success. -/
theorem c1_outcome_success_iff_witness :
    (runBuilderCore none { defaultSchema with maxWarnings := some 3 } false
        (passingEnv [warningOnlyResult 5]) = Except.ok false ∧
      (false = true ↔
        (jsTruthy { defaultSchema with maxWarnings := some 3 }.force = true ∨
          (((passingEnv [warningOnlyResult 5]).lintResults.map
              LintResult.errorCount).sum = 0 ∧
            ¬ ∃ m, { defaultSchema with maxWarnings := some 3 }.maxWarnings = some m ∧
              0 ≤ m ∧
              m < (((passingEnv [warningOnlyResult 5]).lintResults.map
                LintResult.warningCount).sum : Int))))) ∧
    (runBuilderCore none { defaultSchema with maxWarnings := some 3 } false
        (passingEnv [warningOnlyResult 3]) = Except.ok true ∧
      (true = true ↔
        (jsTruthy { defaultSchema with maxWarnings := some 3 }.force = true ∨
          (((passingEnv [warningOnlyResult 3]).lintResults.map
              LintResult.errorCount).sum = 0 ∧
            ¬ ∃ m, { defaultSchema with maxWarnings := some 3 }.maxWarnings = some m ∧
              0 ≤ m ∧
              m < (((passingEnv [warningOnlyResult 3]).lintResults.map
                LintResult.warningCount).sum : Int))))) :=
  ⟨⟨rfl, c1_outcome_success_iff none { defaultSchema with maxWarnings := some 3 }
      false (passingEnv [warningOnlyResult 5]) false rfl⟩,
   ⟨rfl, c1_outcome_success_iff none { defaultSchema with maxWarnings := some 3 }
      false (passingEnv [warningOnlyResult 3]) true rfl⟩⟩

/-- C3: for every flat-format options bag that resolves successfully, the
resolved override-config-file follows the three-state rule: the explicit
path when one is given, else the boolean negation of the config lookup
(the toggle itself), with a false boolean collapsed to absent; with the
toggle set and no explicit path the value is the boolean true (force no
file), and it is never the boolean false. -/
theorem c3_override_config_file_resolution (eslintConfigPath : Option String)
    (options : Schema) (o : ESLintOptions)
    (h : resolveAndInstantiateESLint eslintConfigPath options true = Except.ok o) :
    o.overrideConfigFile =
      overrideConfigFileSpec options.noConfigLookup eslintConfigPath ∧
    o.overrideConfigFile ≠ ConfigFileValue.bool false := by
  unfold resolveAndInstantiateESLint at h
  split at h
  · exact Except.noConfusion h
  · split at h
    · exact Except.noConfusion h
    · rw [if_pos rfl] at h
      split at h
      · exact Except.noConfusion h
      · split at h
        · exact Except.noConfusion h
        · split at h
          · exact Except.noConfusion h
          · split at h
            · exact Except.noConfusion h
            · injection h with hb
              subst hb
              cases hncl : options.noConfigLookup with
              | none =>
                cases eslintConfigPath <;>
                  simp [hncl, overrideConfigFileSpec]
              | some toggle =>
                cases toggle <;> cases eslintConfigPath <;>
                  simp [hncl, overrideConfigFileSpec]

/-- Witness for C3: the disable-config-lookup toggle set with no explicit
path resolves to the boolean true override, never false. -/
theorem c3_override_config_file_resolution_witness :
    resolveAndInstantiateESLint none
        { defaultSchema with noConfigLookup := some true } true =
      Except.ok noLookupResolvedOptions ∧
    noLookupResolvedOptions.overrideConfigFile =
      overrideConfigFileSpec (some true) none ∧
    noLookupResolvedOptions.overrideConfigFile ≠ ConfigFileValue.bool false ∧
    noLookupResolvedOptions.overrideConfigFile = ConfigFileValue.bool true :=
  ⟨rfl,
   (c3_override_config_file_resolution none
     { defaultSchema with noConfigLookup := some true }
     noLookupResolvedOptions rfl).1,
   (c3_override_config_file_resolution none
     { defaultSchema with noConfigLookup := some true }
     noLookupResolvedOptions rfl).2,
   rfl⟩

/-- C10: every session-options object produced by the resolver, in either
format, has errorOnUnmatchedPattern set to false. -/
theorem c10_error_on_unmatched_pattern_always_false
    (eslintConfigPath : Option String) (options : Schema)
    (useFlatConfig : Bool) (o : ESLintOptions)
    (h : resolveAndInstantiateESLint eslintConfigPath options useFlatConfig =
      Except.ok o) :
    o.errorOnUnmatchedPattern = false := by
  unfold resolveAndInstantiateESLint at h
  split at h
  · exact Except.noConfusion h
  · split at h
    · exact Except.noConfusion h
    · cases useFlatConfig with
      | true =>
        rw [if_pos rfl] at h
        split at h
        · exact Except.noConfusion h
        · split at h
          · exact Except.noConfusion h
          · split at h
            · exact Except.noConfusion h
            · split at h
              · exact Except.noConfusion h
              · injection h with hb; subst hb; rfl
      | false =>
        rw [if_neg (by simp)] at h
        injection h with hb; subst hb; rfl

/-- Witness for C10: the legacy all-defaults resolution carries
errorOnUnmatchedPattern = false. -/
theorem c10_error_on_unmatched_pattern_always_false_witness :
    resolveAndInstantiateESLint none defaultSchema false =
      Except.ok legacyDefaultResolvedOptions ∧
    legacyDefaultResolvedOptions.errorOnUnmatchedPattern = false :=
  ⟨rfl,
   c10_error_on_unmatched_pattern_always_false none defaultSchema false
     legacyDefaultResolvedOptions rfl⟩

/-- C4: under flat format (once the file-name allow-list check does not
fire), each of the four legacy-only fields is checked independently, and
whichever of them is set makes the resolver fail with its own distinct
error message; the four messages are pairwise distinct, each names its
offending option and each carries a remediation link. -/
theorem c4_flat_rejects_legacy_only_options (eslintConfigPath : Option String)
    (options : Schema)
    (hname : jsStrTruthy eslintConfigPath = false ∨
      (supportedFlatConfigNames.any fun name =>
        jsEndsWith (eslintConfigPath.getD "") name) = true) :
    (options.useEslintrc.isSome = true →
      resolveAndInstantiateESLint eslintConfigPath options true =
        Except.error useEslintrcNotApplicableMsg) ∧
    (options.useEslintrc = none → options.resolvePluginsRelativeTo.isSome = true →
      resolveAndInstantiateESLint eslintConfigPath options true =
        Except.error resolvePluginsRelativeToRemovedMsg) ∧
    (options.useEslintrc = none → options.resolvePluginsRelativeTo = none →
      options.ignorePath.isSome = true →
      resolveAndInstantiateESLint eslintConfigPath options true =
        Except.error ignorePathRemovedMsg) ∧
    (options.useEslintrc = none → options.resolvePluginsRelativeTo = none →
      options.ignorePath = none →
      jsStrTruthy options.reportUnusedDisableDirectives = true →
      resolveAndInstantiateESLint eslintConfigPath options true =
        Except.error reportUnusedDisableDirectivesRemovedMsg) ∧
    List.Pairwise (fun a b => a ≠ b)
      [useEslintrcNotApplicableMsg, resolvePluginsRelativeToRemovedMsg,
       ignorePathRemovedMsg, reportUnusedDisableDirectivesRemovedMsg] ∧
    (containsStr useEslintrcNotApplicableMsg "useEslintrc" = true ∧
      containsStr resolvePluginsRelativeToRemovedMsg "resolvePluginsRelativeTo" = true ∧
      containsStr ignorePathRemovedMsg "ignorePath" = true ∧
      containsStr reportUnusedDisableDirectivesRemovedMsg
        "reportUnusedDisableDirectives" = true) ∧
    (containsStr useEslintrcNotApplicableMsg "https://" = true ∧
      containsStr resolvePluginsRelativeToRemovedMsg "https://" = true ∧
      containsStr ignorePathRemovedMsg "https://" = true ∧
      containsStr reportUnusedDisableDirectivesRemovedMsg "https://" = true) := by
  refine ⟨?_, ?_, ?_, ?_, by decide, by decide, by decide⟩
  · intro h1
    rcases hname with hn | hn <;>
      simp [resolveAndInstantiateESLint, hn, h1]
  · intro h1 h2
    rcases hname with hn | hn <;>
      simp [resolveAndInstantiateESLint, hn, h1, h2]
  · intro h1 h2 h3
    rcases hname with hn | hn <;>
      simp [resolveAndInstantiateESLint, hn, h1, h2, h3]
  · intro h1 h2 h3 h4
    rcases hname with hn | hn <;>
      simp [resolveAndInstantiateESLint, hn, h1, h2, h3, h4]

/-- Witness for C4: each of the four legacy-only fields, set on its own in
a flat run with no explicit config path, produces its distinct error. -/
theorem c4_flat_rejects_legacy_only_options_witness :
    resolveAndInstantiateESLint none
        { defaultSchema with useEslintrc := some false } true =
      Except.error useEslintrcNotApplicableMsg ∧
    resolveAndInstantiateESLint none
        { defaultSchema with resolvePluginsRelativeTo := some "./some-path" } true =
      Except.error resolvePluginsRelativeToRemovedMsg ∧
    resolveAndInstantiateESLint none
        { defaultSchema with ignorePath := some "./some-path" } true =
      Except.error ignorePathRemovedMsg ∧
    resolveAndInstantiateESLint none
        { defaultSchema with reportUnusedDisableDirectives := some "error" } true =
      Except.error reportUnusedDisableDirectivesRemovedMsg :=
  ⟨(c4_flat_rejects_legacy_only_options none
      { defaultSchema with useEslintrc := some false } (Or.inl rfl)).1 rfl,
   (c4_flat_rejects_legacy_only_options none
      { defaultSchema with resolvePluginsRelativeTo := some "./some-path" }
      (Or.inl rfl)).2.1 rfl rfl,
   (c4_flat_rejects_legacy_only_options none
      { defaultSchema with ignorePath := some "./some-path" }
      (Or.inl rfl)).2.2.1 rfl rfl rfl,
   (c4_flat_rejects_legacy_only_options none
      { defaultSchema with reportUnusedDisableDirectives := some "error" }
      (Or.inl rfl)).2.2.2.1 rfl rfl rfl rfl⟩

/-- C6: a flat-format run with a non-empty explicit config path fails with
the allow-list error exactly when the path does not end with one of the
six recognized flat-config names, and that error names every allowed
name. -/
theorem c6_flat_config_name_allow_list (p : String) (options : Schema)
    (hp : ¬ p = "") :
    (resolveAndInstantiateESLint (some p) options true =
        Except.error flatConfigFileNameMsg ↔
      (supportedFlatConfigNames.any fun name => jsEndsWith p name) = false) ∧
    (∀ name, name ∈ supportedFlatConfigNames →
      containsStr flatConfigFileNameMsg name = true) := by
  refine ⟨?_, by decide⟩
  by_cases hany : (supportedFlatConfigNames.any fun name => jsEndsWith p name) = true
  · refine iff_of_false ?_ (by simp [hany])
    intro hEq
    unfold resolveAndInstantiateESLint at hEq
    rw [if_neg (by simp)] at hEq
    rw [if_neg (by simp [hany])] at hEq
    rw [if_pos rfl] at hEq
    split at hEq
    · injection hEq with hmsg; exact absurd hmsg (by decide)
    · split at hEq
      · injection hEq with hmsg; exact absurd hmsg (by decide)
      · split at hEq
        · injection hEq with hmsg; exact absurd hmsg (by decide)
        · split at hEq
          · injection hEq with hmsg; exact absurd hmsg (by decide)
          · exact Except.noConfusion hEq
  · have hany' : (supportedFlatConfigNames.any fun name => jsEndsWith p name) = false := by
      cases hv : (supportedFlatConfigNames.any fun name => jsEndsWith p name) with
      | true => exact absurd hv hany
      | false => rfl
    refine iff_of_true ?_ hany'
    unfold resolveAndInstantiateESLint
    rw [if_neg (by simp)]
    rw [if_pos (by simp [jsStrTruthy, hp, hany'])]

/-- Witness for C6: a legacy-style file name is rejected under flat
format, while a recognized flat-config name is not rejected by this
check. -/
theorem c6_flat_config_name_allow_list_witness :
    resolveAndInstantiateESLint (some "./.eslintrc.json") defaultSchema true =
      Except.error flatConfigFileNameMsg ∧
    ¬ (resolveAndInstantiateESLint (some "./eslint.config.ts") defaultSchema true =
      Except.error flatConfigFileNameMsg) :=
  ⟨(c6_flat_config_name_allow_list "./.eslintrc.json" defaultSchema
      (by decide)).1.mpr (by decide),
   fun hEq =>
     absurd ((c6_flat_config_name_allow_list "./eslint.config.ts" defaultSchema
       (by decide)).1.mp hEq) (by decide)⟩

/-- C7: under legacy format the resolver fails with the stats error
exactly when the statistics flag is truthy; otherwise it succeeds, and
every successful legacy resolution carries no stats field, a
rule-directories list defaulting to empty, present (possibly undefined)
plugin-resolution-root and ignore-path fields, and a use-legacy-config
boolean equal to the negation of the no-eslintrc option. -/
theorem c7_legacy_options_shape (eslintConfigPath : Option String)
    (options : Schema) :
    (jsTruthy options.stats = true →
      resolveAndInstantiateESLint eslintConfigPath options false =
        Except.error statsRequiresFlatConfigMsg) ∧
    (jsTruthy options.stats = false →
      (resolveAndInstantiateESLint eslintConfigPath options false).isOk = true) ∧
    (∀ o, resolveAndInstantiateESLint eslintConfigPath options false = Except.ok o →
      o.stats = none ∧
      o.rulePaths = some (options.rulesdir.getD []) ∧
      o.resolvePluginsRelativeTo = some (jsOrUndefined options.resolvePluginsRelativeTo) ∧
      o.ignorePath = some (jsOrUndefined options.ignorePath) ∧
      o.useEslintrc = some (!jsTruthy options.noEslintrc)) := by
  refine ⟨?_, ?_, ?_⟩
  · intro h
    simp [resolveAndInstantiateESLint, h]
  · intro h
    unfold resolveAndInstantiateESLint
    split
    · next hc => exact absurd hc (by simp [h])
    · split
      · next hc => exact absurd hc (by simp)
      · split
        · next hc => exact absurd hc (by simp)
        · rfl
  · intro o h
    unfold resolveAndInstantiateESLint at h
    split at h
    · exact Except.noConfusion h
    · split at h
      · exact Except.noConfusion h
      · rw [if_neg (by simp)] at h
        injection h with hb
        subst hb
        exact ⟨rfl, rfl, rfl, rfl, rfl⟩

/-- Witness for C7: a legacy run with the statistics flag fails with the
stats error; the all-defaults legacy run succeeds and its resolved
options have the claimed shape. -/
theorem c7_legacy_options_shape_witness :
    (resolveAndInstantiateESLint none { defaultSchema with stats := some true }
        false = Except.error statsRequiresFlatConfigMsg) ∧
    ((resolveAndInstantiateESLint none defaultSchema false).isOk = true) ∧
    (legacyDefaultResolvedOptions.stats = none ∧
      legacyDefaultResolvedOptions.rulePaths = some [] ∧
      legacyDefaultResolvedOptions.resolvePluginsRelativeTo = some none ∧
      legacyDefaultResolvedOptions.ignorePath = some none ∧
      legacyDefaultResolvedOptions.useEslintrc = some true) :=
  ⟨(c7_legacy_options_shape none { defaultSchema with stats := some true }).1 rfl,
   (c7_legacy_options_shape none defaultSchema).2.1 rfl,
   (c7_legacy_options_shape none defaultSchema).2.2
     legacyDefaultResolvedOptions rfl⟩

/-- The ignored-pattern lines are exactly the truthy ignored patterns, in
input order, each rendered with the dash prefix. -/
theorem ignoredPatterns_eq_filter_map (isPathIgnored : String → Bool)
    (patterns : List String) :
    ignoredPatterns isPathIgnored patterns =
      (patterns.filter fun pattern => isPathIgnored pattern && pattern != "").map
        fun pattern => "- \x27" ++ pattern ++ "\x27" := by
  induction patterns with
  | nil => rfl
  | cons p ps ih =>
    by_cases hf : isPathIgnored p = true
    · by_cases he : p = ""
      · subst he
        simpa [ignoredPatterns, jsStrTruthy, hf, List.filter_cons] using ih
      · simpa [ignoredPatterns, jsStrTruthy, hf, he, List.filter_cons] using ih
    · have hf' : isPathIgnored p = false := by
        cases hq : isPathIgnored p with
        | true => exact absurd hq hf
        | false => rfl
      simpa [ignoredPatterns, jsStrTruthy, hf', List.filter_cons] using ih

/-- Counterexample for C5: with two patterns of which only one is ignored
(so not all patterns are ignored) and zero lint results, the run fails
with the all-files-ignored error enumerating the ignored pattern, not
with the no-matching-files error the claim predicts for this case. -/
theorem c5_empty_results_counterexample :
    runBuilderCore none
        { defaultSchema with lintFilePatterns := ["ignored.ts", "missing.ts"] }
        false
        { eslintVersion := some "9.0.0", lintResults := [],
          isPathIgnored := fun pattern => pattern == "ignored.ts" } =
      Except.error (allFilesIgnoredMsg ["- \x27ignored.ts\x27"]) ∧
    (fun pattern => pattern == "ignored.ts") "missing.ts" = false ∧
    allFilesIgnoredMsg ["- \x27ignored.ts\x27"] ≠ nothingToLintMsg :=
  ⟨rfl, rfl, by decide⟩

/-- C5 (amended): when the lint pass returns zero results, each pattern is
re-checked against the ignore predicate; if at least one pattern is
ignored the run fails with the error enumerating the ignored patterns
(each prefixed with a dash, preserving input order), and only when no
pattern reports as ignored does it fail with the distinct
no-matching-files error. -/
theorem c5_empty_results_handling (eslintConfigPath : Option String)
    (options : Schema) (useFlatConfig : Bool) (env : LintEnv)
    (hres : ∃ o, resolveAndInstantiateESLint eslintConfigPath options useFlatConfig =
      Except.ok o)
    (hver : versionTooOld env.eslintVersion = false)
    (hempty : env.lintResults = []) :
    (ignoredPatterns env.isPathIgnored options.lintFilePatterns ≠ [] →
      runBuilderCore eslintConfigPath options useFlatConfig env =
        Except.error
          (allFilesIgnoredMsg
            (ignoredPatterns env.isPathIgnored options.lintFilePatterns))) ∧
    (ignoredPatterns env.isPathIgnored options.lintFilePatterns = [] →
      runBuilderCore eslintConfigPath options useFlatConfig env =
        Except.error nothingToLintMsg) ∧
    ignoredPatterns env.isPathIgnored options.lintFilePatterns =
      (options.lintFilePatterns.filter fun pattern =>
        env.isPathIgnored pattern && pattern != "").map
        fun pattern => "- \x27" ++ pattern ++ "\x27" := by
  obtain ⟨o, ho⟩ := hres
  have hrun : runBuilderCore eslintConfigPath options useFlatConfig env =
      Except.error (emptyLintResultsError env.isPathIgnored options.lintFilePatterns) := by
    unfold runBuilderCore
    rw [ho, if_neg (by simp [hver]), if_pos (by simp [hempty])]
  refine ⟨?_, ?_, ignoredPatterns_eq_filter_map _ _⟩
  · intro hi
    rw [hrun]
    unfold emptyLintResultsError
    rw [if_pos (by simp [hi])]
  · intro hi
    rw [hrun]
    unfold emptyLintResultsError
    rw [if_neg (by simp [hi])]

/-- Witness for C5: with both patterns ignored and zero results, the run
fails with the message enumerating both patterns in input order. -/
theorem c5_empty_results_handling_witness :
    runBuilderCore none
        { defaultSchema with lintFilePatterns := ["lib/**/*.ts", "src/**/*.ts"] }
        false
        { eslintVersion := some "9.0.0", lintResults := [],
          isPathIgnored := fun _ => true } =
      Except.error
        (allFilesIgnoredMsg
          (ignoredPatterns (fun _ => true) ["lib/**/*.ts", "src/**/*.ts"])) ∧
    allFilesIgnoredMsg (ignoredPatterns (fun _ => true) ["lib/**/*.ts", "src/**/*.ts"]) =
      "All files matching the following patterns are ignored:\n- \x27lib/**/*.ts\x27\n- \x27src/**/*.ts\x27\n\nPlease check your \x27.eslintignore\x27 file." :=
  ⟨(c5_empty_results_handling none
      { defaultSchema with lintFilePatterns := ["lib/**/*.ts", "src/**/*.ts"] }
      false
      { eslintVersion := some "9.0.0", lintResults := [],
        isPathIgnored := fun _ => true }
      ⟨_, rfl⟩ rfl rfl).1 (by decide),
   rfl⟩

/-- C8: once the options resolve, a version that is absent, has fewer than
two dot-separated components, or whose numeric major/minor is below 7.6
makes the run fail with the version error, whatever lint results or
ignore predicate the environment would have supplied — so no linting is
attempted. -/
theorem c8_version_gate_fails_fatally (eslintConfigPath : Option String)
    (options : Schema) (useFlatConfig : Bool) (version : Option String)
    (hres : ∃ o, resolveAndInstantiateESLint eslintConfigPath options useFlatConfig =
      Except.ok o)
    (hbad : version = none
      ∨ (∃ v, version = some v ∧ (jsSplitDot v).length < 2)
      ∨ (∃ v a b, version = some v ∧ 2 ≤ (jsSplitDot v).length ∧
          jsNumber ((jsSplitDot v).getD 0 "") = some a ∧
          jsNumber ((jsSplitDot v).getD 1 "") = some b ∧
          (a < 7 ∨ (a = 7 ∧ b < 6)))) :
    ∀ (lintResults : List LintResult) (isPathIgnored : String → Bool),
      runBuilderCore eslintConfigPath options useFlatConfig
        { eslintVersion := version, lintResults := lintResults,
          isPathIgnored := isPathIgnored } = Except.error eslintVersionMsg := by
  obtain ⟨o, ho⟩ := hres
  have hvt : versionTooOld version = true := by
    rcases hbad with hq | ⟨v, hv, hlen⟩ | ⟨v, a, b, hv, hlen, ha, hb, hcmp⟩
    · rw [hq]; rfl
    · rw [hv]
      simp only [versionTooOld]
      rw [if_pos hlen]
    · rw [hv]
      simp only [versionTooOld]
      rw [if_neg (by omega)]
      rw [ha, hb]
      simp only [jsNumLt, jsNumEq]
      rcases hcmp with h | ⟨h1, h2⟩
      · simp [h]
      · simp [h1, h2]
  intro lintResults isPathIgnored
  unfold runBuilderCore
  rw [ho]
  rw [if_pos hvt]

/-- Witness for C8: version 7.5.0 fails with the version error even in an
environment holding results to lint. -/
theorem c8_version_gate_fails_fatally_witness :
    runBuilderCore none defaultSchema false
        { eslintVersion := some "7.5.0",
          lintResults := [warningOnlyResult 0],
          isPathIgnored := fun _ => false } = Except.error eslintVersionMsg :=
  c8_version_gate_fails_fatally none defaultSchema false (some "7.5.0")
    ⟨_, rfl⟩
    (Or.inr (Or.inr ⟨"7.5.0", 7, 5, rfl, by decide, rfl, rfl,
      Or.inr ⟨rfl, by decide⟩⟩))
    [warningOnlyResult 0] (fun _ => false)

/-- Counterexample for C9: the source lookup checks `.eslintrc.json` and
only THREE flat-config names (js, mjs, cjs).  With a filesystem whose
only existing file is the fourth canonical flat-config name
(eslint.config.ts), the source returns nothing, while the lookup the
claim describes (four flat-config names) finds the file. -/
theorem c9_lookup_counterexample :
    resolveESLintConfigPath (fun q => q == "root/eslint.config.ts") "root" = none ∧
    resolveESLintConfigPathSpecFourNames
        (fun q => q == "root/eslint.config.ts") "root" =
      some "root/eslint.config.ts" ∧
    "root/eslint.config.ts" = pathJoin "root" "eslint.config.ts" ∧
    "eslint.config.ts" ∈ supportedFlatConfigNames :=
  ⟨rfl, rfl, rfl, by decide⟩

/-- C9 (amended): the best-effort configuration path resolved for the
type-information error message follows a fixed lookup order —
`.eslintrc.json` first, then THREE flat-config names (js, mjs, cjs) —
returning the first existing file and none when no candidate exists,
independent of which configuration format is actually active (the lookup
never consults the format). -/
theorem c9_config_lookup_order (existsAt : String → Bool)
    (projectRoot : String) :
    resolveESLintConfigPath existsAt projectRoot =
      ([pathJoin projectRoot ".eslintrc.json",
        pathJoin projectRoot "eslint.config.js",
        pathJoin projectRoot "eslint.config.mjs",
        pathJoin projectRoot "eslint.config.cjs"].find? existsAt) := by
  unfold resolveESLintConfigPath
  cases h1 : existsAt (pathJoin projectRoot ".eslintrc.json") <;>
    cases h2 : existsAt (pathJoin projectRoot "eslint.config.js") <;>
      cases h3 : existsAt (pathJoin projectRoot "eslint.config.mjs") <;>
        cases h4 : existsAt (pathJoin projectRoot "eslint.config.cjs") <;>
          simp [List.find?, h1, h2, h3, h4]
